import Mathlib

/-!
Verification of the load-generator / metrics-collector core of the db-study
repository: the write-server (`load-test/write-server/load/{config,generator}.go`,
`write-server/metrics`) and the read-server variant (`load` / `metrics`
packages).  Go integers are modelled as `Int` (divisions only appear under
positivity hypotheses, where Go truncation, floor and euclidean division
agree), `time.Duration` values as `Nat` nanoseconds (they arise from
`time.Since`, which is non-negative), and float fields that the claims touch
only at integer points as `Nat`/`ℚ`.  Mutating methods become pure functions
from the receiver to the updated receiver (paired with the returned `error`,
modelled as `Option String`).
-/

namespace DbStudy

/-! ### Write-server workload configuration (`write-server/load/config.go`) -/

/-- `Config` of the write server: target TPS (0 = unlimited), batch INSERT
size, worker count, duration (0 = unlimited) and transaction isolation
level. -/
structure WConfig where
  TPS : Int
  BatchSize : Int
  Workers : Int
  Duration : Int
  IsolationLevel : String
deriving DecidableEq

/-- The three isolation levels accepted by the `switch` in both `Validate`
implementations. -/
def validIsolationLevels : List String :=
  ["READ COMMITTED", "REPEATABLE READ", "SERIALIZABLE"]

/-- `Config.Validate` of the write server: repairs each out-of-range scalar
field in place and always returns `nil`. -/
def WConfig.Validate (c : WConfig) : WConfig × Option String :=
  let c1 := if c.TPS < 0 then { c with TPS := 0 } else c
  let c2 := if c1.BatchSize < 1 then { c1 with BatchSize := 1 } else c1
  let c3 := if c2.Workers < 1 then { c2 with Workers := 1 } else c2
  let c4 := if c3.Duration < 0 then { c3 with Duration := 0 } else c3
  let c5 := if c4.IsolationLevel ∈ validIsolationLevels then c4
            else { c4 with IsolationLevel := "READ COMMITTED" }
  (c5, none)

/-! ### Read-server workload configuration (`read-server/load/config.go`) -/

/-- `QueryMix`: percentage weights of the three query kinds. -/
structure QueryMix where
  Simple : Int
  Filter : Int
  Aggregate : Int
deriving DecidableEq

/-- `Config` of the read server. -/
structure RConfig where
  QPS : Int
  Workers : Int
  Duration : Int
  QueryMix : QueryMix
  IsolationLevel : String
deriving DecidableEq

/-- `Config.Validate` of the read server: repairs the scalar fields, then
rejects a query mix whose weights do not sum to 100 or contain a negative
weight, and only afterwards normalizes the isolation level. -/
def RConfig.Validate (c : RConfig) : RConfig × Option String :=
  let c1 := if c.QPS < 0 then { c with QPS := 0 } else c
  let c2 := if c1.Workers < 1 then { c1 with Workers := 1 } else c1
  let c3 := if c2.Duration < 0 then { c2 with Duration := 0 } else c2
  let total := c3.QueryMix.Simple + c3.QueryMix.Filter + c3.QueryMix.Aggregate
  if total ≠ 100 then
    (c3, some "query_mix percentages must sum to 100")
  else if c3.QueryMix.Simple < 0 ∨ c3.QueryMix.Filter < 0 ∨ c3.QueryMix.Aggregate < 0 then
    (c3, some "query_mix percentages must be non-negative")
  else
    let c4 := if c3.IsolationLevel ∈ validIsolationLevels then c3
              else { c3 with IsolationLevel := "READ COMMITTED" }
    (c4, none)

lemma WConfig.Validate_eq (c : WConfig) :
    c.Validate =
      ({ TPS := max c.TPS 0, BatchSize := max c.BatchSize 1,
         Workers := max c.Workers 1, Duration := max c.Duration 0,
         IsolationLevel :=
           if c.IsolationLevel ∈ validIsolationLevels then c.IsolationLevel
           else "READ COMMITTED" }, none) := by
  obtain ⟨t, b, w, d, iso⟩ := c
  simp only [WConfig.Validate]
  split_ifs <;> simp_all [WConfig.mk.injEq] <;> omega

lemma RConfig.Validate_fst (c : RConfig) :
    (c.Validate).1.QPS = max c.QPS 0 ∧
    (c.Validate).1.Workers = max c.Workers 1 ∧
    (c.Validate).1.Duration = max c.Duration 0 ∧
    (c.Validate).1.QueryMix = c.QueryMix := by
  obtain ⟨q, w, d, mix, iso⟩ := c
  simp only [RConfig.Validate]
  split_ifs <;> simp_all <;> omega

lemma RConfig.Validate_err (c : RConfig) :
    (c.Validate).2 ≠ none ↔
      (c.QueryMix.Simple + c.QueryMix.Filter + c.QueryMix.Aggregate ≠ 100 ∨
       c.QueryMix.Simple < 0 ∨ c.QueryMix.Filter < 0 ∨ c.QueryMix.Aggregate < 0) := by
  obtain ⟨q, w, d, mix, iso⟩ := c
  simp only [RConfig.Validate]
  split_ifs <;> simp_all

lemma RConfig.Validate_iso_ok (c : RConfig) (h : (c.Validate).2 = none) :
    (c.IsolationLevel ∈ validIsolationLevels →
       (c.Validate).1.IsolationLevel = c.IsolationLevel) ∧
    (c.IsolationLevel ∉ validIsolationLevels →
       (c.Validate).1.IsolationLevel = "READ COMMITTED") := by
  obtain ⟨q, w, d, mix, iso⟩ := c
  simp only [RConfig.Validate] at *
  split_ifs at h ⊢ <;> simp_all

lemma RConfig.Validate_iso_err (c : RConfig) (h : (c.Validate).2 ≠ none) :
    (c.Validate).1.IsolationLevel = c.IsolationLevel := by
  obtain ⟨q, w, d, mix, iso⟩ := c
  simp only [RConfig.Validate] at *
  split_ifs at h ⊢ <;> simp_all

/-- A read-server config whose mix weights are 60/50/0 (sum 110), with an
unrecognized isolation level. -/
def mix6050Config : RConfig :=
  { QPS := 1000, Workers := 10, Duration := 0,
    QueryMix := { Simple := 60, Filter := 50, Aggregate := 0 },
    IsolationLevel := "BOGUS" }

/-- A read-server config whose mix weights are 60/40/0 (sum 100). -/
def mix6040Config : RConfig :=
  { QPS := 1000, Workers := 10, Duration := 0,
    QueryMix := { Simple := 60, Filter := 40, Aggregate := 0 },
    IsolationLevel := "READ COMMITTED" }

/-- Claim C1, counterexample: on a read-server config whose mix sums to 110
and whose isolation level is unrecognized, `Validate` returns an error but
leaves the isolation level untouched — it is not repaired to READ COMMITTED,
contradicting the claim that every call repairs an unrecognized isolation
level in place. -/
theorem claim_C1_counterexample :
    (mix6050Config.Validate).2 ≠ none ∧
    (mix6050Config.Validate).1.IsolationLevel = "BOGUS" := by
  constructor
  · decide
  · decide

/-- A read-server config with a valid 60/40/0 mix but an unrecognized
isolation level. -/
def mix6040BogusConfig : RConfig :=
  { mix6040Config with IsolationLevel := "bogus" }

/-- Claim C1 (amended): `Validate()` always repairs negative rate to 0,
concurrency below 1 to 1, and negative duration to 0; a recognized isolation
level is kept and an unrecognized one becomes READ COMMITTED whenever no
error is returned, while on the error path (which exists only on the read
server) the isolation level is left untouched, because the mix error is
returned before the isolation-level switch; an error is returned iff the
operation mix is present (read server) and its weights do not sum to 100 or
some weight is negative — the write server, which has no mix, never errors;
a 60/50 mix is rejected and a 60/40 mix accepted. -/
theorem claim_C1_validate (cw : WConfig) (cr : RConfig) :
    (cw.Validate).2 = none ∧
    (cw.Validate).1.TPS = max cw.TPS 0 ∧
    (cw.Validate).1.BatchSize = max cw.BatchSize 1 ∧
    (cw.Validate).1.Workers = max cw.Workers 1 ∧
    (cw.Validate).1.Duration = max cw.Duration 0 ∧
    (cw.IsolationLevel ∈ validIsolationLevels →
      (cw.Validate).1.IsolationLevel = cw.IsolationLevel) ∧
    (cw.IsolationLevel ∉ validIsolationLevels →
      (cw.Validate).1.IsolationLevel = "READ COMMITTED") ∧
    (cr.Validate).1.QPS = max cr.QPS 0 ∧
    (cr.Validate).1.Workers = max cr.Workers 1 ∧
    (cr.Validate).1.Duration = max cr.Duration 0 ∧
    ((cr.Validate).2 ≠ none ↔
      (cr.QueryMix.Simple + cr.QueryMix.Filter + cr.QueryMix.Aggregate ≠ 100 ∨
       cr.QueryMix.Simple < 0 ∨ cr.QueryMix.Filter < 0 ∨ cr.QueryMix.Aggregate < 0)) ∧
    ((cr.Validate).2 = none →
      (cr.IsolationLevel ∈ validIsolationLevels →
         (cr.Validate).1.IsolationLevel = cr.IsolationLevel) ∧
      (cr.IsolationLevel ∉ validIsolationLevels →
         (cr.Validate).1.IsolationLevel = "READ COMMITTED")) ∧
    ((cr.Validate).2 ≠ none →
      (cr.Validate).1.IsolationLevel = cr.IsolationLevel) ∧
    (mix6050Config.Validate).2 ≠ none ∧
    (mix6040Config.Validate).2 = none := by
  obtain ⟨h1, h2, h3, h4⟩ := RConfig.Validate_fst cr
  refine ⟨?_, ?_, ?_, ?_, ?_, ?_, ?_, h1, h2, h3, RConfig.Validate_err cr,
    fun h => RConfig.Validate_iso_ok cr h, fun h => RConfig.Validate_iso_err cr h,
    by decide, by decide⟩
  · rw [WConfig.Validate_eq]
  · rw [WConfig.Validate_eq]
  · rw [WConfig.Validate_eq]
  · rw [WConfig.Validate_eq]
  · rw [WConfig.Validate_eq]
  · intro h
    simp [WConfig.Validate_eq, h]
  · intro h
    simp [WConfig.Validate_eq, h]

/-- Claim C1 witness: with a valid 60/40 mix and unrecognized isolation level
"bogus", `Validate` succeeds and normalizes the level to READ COMMITTED;
with the rejected 60/50 mix the (bogus) isolation level is left untouched. -/
theorem claim_C1_witness :
    (mix6040BogusConfig.Validate).2 = none ∧
    (mix6040BogusConfig.Validate).1.IsolationLevel = "READ COMMITTED" ∧
    (mix6050Config.Validate).1.IsolationLevel = mix6050Config.IsolationLevel := by
  obtain ⟨-, -, -, -, -, -, -, -, -, -, herr1, hok1, -, -, -⟩ :=
    claim_C1_validate (WConfig.mk 0 1 1 0 "SERIALIZABLE") mix6040BogusConfig
  obtain ⟨-, -, -, -, -, -, -, -, -, -, -, -, htouch2, -, -⟩ :=
    claim_C1_validate (WConfig.mk 0 1 1 0 "SERIALIZABLE") mix6050Config
  have hnone : (mix6040BogusConfig.Validate).2 = none := by
    by_contra hne
    exact absurd (herr1.mp hne) (by decide)
  exact ⟨hnone, (hok1 hnone).2 (by decide), htouch2 (by decide)⟩

/-! ### Metrics collector (`write-server/metrics/collector.go`; the
read-server collector is identical except that `RecordSuccess` and
`RecordFailure` increment by 1 instead of a `count` argument, i.e. the
`count = 1` instance of the functions below). -/

/-- The collector state: three counters, the latency sample buffer
(nanosecond durations in append order) and the buffer cap. -/
structure Collector where
  totalRequests : Int
  successRequests : Int
  failedRequests : Int
  latencies : List Nat
  maxLatencies : Nat
deriving DecidableEq

/-- `NewCollector()`: zero counters, empty buffer, cap 100000. -/
def NewCollector : Collector :=
  { totalRequests := 0, successRequests := 0, failedRequests := 0,
    latencies := [], maxLatencies := 100000 }

/-- `Collector.RecordSuccess(latency, count)`: adds `count` to the total and
success counters and appends the latency sample only while the buffer is
below its cap. -/
def Collector.RecordSuccess (c : Collector) (latency : Nat) (count : Int) : Collector :=
  { c with
    totalRequests := c.totalRequests + count
    successRequests := c.successRequests + count
    latencies :=
      if c.latencies.length < c.maxLatencies then c.latencies ++ [latency]
      else c.latencies }

/-- `Collector.RecordFailure(count)`: adds `count` to the total and failure
counters; the sample buffer is untouched. -/
def Collector.RecordFailure (c : Collector) (count : Int) : Collector :=
  { c with
    totalRequests := c.totalRequests + count
    failedRequests := c.failedRequests + count }

/-- `Collector.Reset()`: zeroes the counters and empties the buffer (the cap
is a fixed field and survives). -/
def Collector.Reset (c : Collector) : Collector :=
  { c with totalRequests := 0, successRequests := 0, failedRequests := 0,
           latencies := [] }

/-- `time.Duration.Milliseconds()` on a non-negative duration: nanoseconds
divided by 10^6, truncated. -/
def millis (ns : Nat) : Nat := ns / 1000000

/-- The percentile index used by `GetMetrics`:
`sortedLatencies[len(sortedLatencies)*p/100]`. -/
def percentileIndex (len p : Nat) : Nat := len * p / 100

/-- The snapshot struct returned by `GetMetrics` (the fields the claims are
about; latency percentiles are integral milliseconds in the source, the
average is a rational). -/
structure Metrics where
  TotalRequests : Int
  SuccessRequests : Int
  FailedRequests : Int
  AvgLatency : ℚ
  P50Latency : Nat
  P95Latency : Nat
  P99Latency : Nat
deriving DecidableEq

/-- `Collector.GetMetrics()`: copies the counters and, when the buffer is
non-empty, computes the average over a sum of the samples and the P50/P95/P99
values from an ascending sort of a copy of the buffer; with an empty buffer
all latency figures are zero. -/
def Collector.GetMetrics (c : Collector) : Metrics :=
  if 0 < c.latencies.length then
    { TotalRequests := c.totalRequests
      SuccessRequests := c.successRequests
      FailedRequests := c.failedRequests
      AvgLatency :=
        (millis (c.latencies.foldr (· + ·) 0) : ℚ) / (c.latencies.length : ℚ)
      P50Latency :=
        millis ((c.latencies.mergeSort).getD (percentileIndex c.latencies.length 50) 0)
      P95Latency :=
        millis ((c.latencies.mergeSort).getD (percentileIndex c.latencies.length 95) 0)
      P99Latency :=
        millis ((c.latencies.mergeSort).getD (percentileIndex c.latencies.length 99) 0) }
  else
    { TotalRequests := c.totalRequests
      SuccessRequests := c.successRequests
      FailedRequests := c.failedRequests
      AvgLatency := 0, P50Latency := 0, P95Latency := 0, P99Latency := 0 }

lemma Collector.GetMetrics_counters (c : Collector) :
    (c.GetMetrics).TotalRequests = c.totalRequests ∧
    (c.GetMetrics).SuccessRequests = c.successRequests ∧
    (c.GetMetrics).FailedRequests = c.failedRequests := by
  simp only [Collector.GetMetrics]
  split <;> simp

/-- One call in the collector's public mutating interface. -/
inductive CollectorOp where
  | recordSuccess (latency : Nat) (count : Int)
  | recordFailure (count : Int)
  | reset

/-- Effect of one interface call on the collector state. -/
def applyOp (c : Collector) : CollectorOp → Collector
  | .recordSuccess latency count => c.RecordSuccess latency count
  | .recordFailure count => c.RecordFailure count
  | .reset => c.Reset

/-- A whole call history, applied in order to a starting state. -/
def runOps (c : Collector) (ops : List CollectorOp) : Collector :=
  ops.foldl applyOp c

lemma applyOp_counter {c : Collector}
    (h : c.totalRequests = c.successRequests + c.failedRequests) (op : CollectorOp) :
    (applyOp c op).totalRequests
      = (applyOp c op).successRequests + (applyOp c op).failedRequests := by
  cases op <;>
    simp only [applyOp, Collector.RecordSuccess, Collector.RecordFailure,
      Collector.Reset] <;> omega

lemma runOps_counter {c : Collector}
    (h : c.totalRequests = c.successRequests + c.failedRequests)
    (ops : List CollectorOp) :
    (runOps c ops).totalRequests
      = (runOps c ops).successRequests + (runOps c ops).failedRequests := by
  induction ops generalizing c with
  | nil => exact h
  | cons op ops ih => exact ih (applyOp_counter h op)

/-- Claim C2: after any sequence of `RecordSuccess`, `RecordFailure` and
`Reset` calls starting from a fresh collector, the counters satisfy
`totalRequests = successRequests + failedRequests`, and every `GetMetrics`
snapshot therefore reports total = success + failure. -/
theorem claim_C2_counter_invariant (ops : List CollectorOp) :
    (runOps NewCollector ops).totalRequests
      = (runOps NewCollector ops).successRequests
        + (runOps NewCollector ops).failedRequests ∧
    ((runOps NewCollector ops).GetMetrics).TotalRequests
      = ((runOps NewCollector ops).GetMetrics).SuccessRequests
        + ((runOps NewCollector ops).GetMetrics).FailedRequests := by
  have h := runOps_counter (c := NewCollector) (by simp [NewCollector]) ops
  obtain ⟨h1, h2, h3⟩ := Collector.GetMetrics_counters (runOps NewCollector ops)
  exact ⟨h, by rw [h1, h2, h3]; exact h⟩

lemma percentileIndex_lt {n p : Nat} (hn : 0 < n) (hp : p ≤ 99) :
    percentileIndex n p < n := by
  have h1 : n * p ≤ n * 99 := Nat.mul_le_mul_left n hp
  have h2 : n * 99 < n * 100 := by omega
  exact (Nat.div_lt_iff_lt_mul (by norm_num)).mpr (lt_of_le_of_lt h1 h2)

lemma Collector.GetMetrics_latency (c : Collector) (h : 0 < c.latencies.length) :
    (c.GetMetrics).P50Latency
      = millis ((c.latencies.mergeSort).getD (percentileIndex c.latencies.length 50) 0) ∧
    (c.GetMetrics).P95Latency
      = millis ((c.latencies.mergeSort).getD (percentileIndex c.latencies.length 95) 0) ∧
    (c.GetMetrics).P99Latency
      = millis ((c.latencies.mergeSort).getD (percentileIndex c.latencies.length 99) 0) := by
  simp only [Collector.GetMetrics, if_pos h]
  simp

/-- A concrete collector holding three samples (3ms, 1ms, 2ms in
nanoseconds). -/
def sampleCollector : Collector :=
  { NewCollector with latencies := [3000000, 1000000, 2000000] }

/-- Claim C4: for any of the three percentiles the index `len * p / 100`
computed by `GetMetrics` is strictly below the buffer length (and below the
length of the sorted copy that is actually indexed), so the access is in
bounds; and with an empty buffer the snapshot reports zero average and zero
P50/P95/P99 instead of failing. -/
theorem claim_C4_percentile_safety (c : Collector) (p : Nat)
    (hp : p = 50 ∨ p = 95 ∨ p = 99) :
    (0 < c.latencies.length →
       percentileIndex c.latencies.length p < c.latencies.length ∧
       percentileIndex c.latencies.length p < (c.latencies.mergeSort).length) ∧
    (c.latencies.length = 0 →
       (c.GetMetrics).AvgLatency = 0 ∧ (c.GetMetrics).P50Latency = 0 ∧
       (c.GetMetrics).P95Latency = 0 ∧ (c.GetMetrics).P99Latency = 0) := by
  constructor
  · intro hn
    have hp99 : p ≤ 99 := by rcases hp with rfl | rfl | rfl <;> norm_num
    have hlt := percentileIndex_lt hn hp99
    have hlen : (c.latencies.mergeSort).length = c.latencies.length :=
      (List.mergeSort_perm c.latencies _).length_eq
    exact ⟨hlt, by rw [hlen]; exact hlt⟩
  · intro h0
    have : ¬ 0 < c.latencies.length := by omega
    simp only [Collector.GetMetrics, if_neg this]
    simp

/-- Claim C4 witness: in-bounds indices on a three-sample collector and
zero latency figures on a fresh (empty) collector. -/
theorem claim_C4_witness :
    (percentileIndex sampleCollector.latencies.length 50
        < sampleCollector.latencies.length) ∧
    (NewCollector.GetMetrics).P50Latency = 0 :=
  ⟨((claim_C4_percentile_safety sampleCollector 50 (Or.inl rfl)).1 (by decide)).1,
   ((claim_C4_percentile_safety NewCollector 50 (Or.inl rfl)).2 rfl).2.1⟩

lemma sorted_getD_le {l : List Nat} (hs : l.Sorted (· ≤ ·)) {i j : Nat}
    (hij : i ≤ j) (hj : j < l.length) : l.getD i 0 ≤ l.getD j 0 := by
  have hi : i < l.length := lt_of_le_of_lt hij hj
  rw [List.getD_eq_getElem l 0 hi, List.getD_eq_getElem l 0 hj]
  have h := List.Sorted.rel_get_of_le hs (a := ⟨i, hi⟩) (b := ⟨j, hj⟩) hij
  simpa using h

lemma getD_mem {l : List Nat} {i : Nat} (hi : i < l.length) : l.getD i 0 ∈ l := by
  rw [List.getD_eq_getElem l 0 hi]
  exact List.getElem_mem hi

lemma mem_le_foldr_max {a : Nat} {l : List Nat} (h : a ∈ l) : a ≤ l.foldr max 0 := by
  induction l with
  | nil => cases h
  | cons x xs ih =>
    rcases List.mem_cons.mp h with rfl | h2
    · exact le_max_left _ _
    · exact le_trans (ih h2) (le_max_right _ _)

/-- Claim C7: on a non-empty buffer the snapshot's percentiles are monotone,
`P50 ≤ P95 ≤ P99`, and P99 is bounded by the largest sample in the buffer
(in the snapshot's millisecond unit). -/
theorem claim_C7_percentile_monotone (c : Collector) (h : 0 < c.latencies.length) :
    (c.GetMetrics).P50Latency ≤ (c.GetMetrics).P95Latency ∧
    (c.GetMetrics).P95Latency ≤ (c.GetMetrics).P99Latency ∧
    (c.GetMetrics).P99Latency ≤ millis (c.latencies.foldr max 0) := by
  obtain ⟨e50, e95, e99⟩ := Collector.GetMetrics_latency c h
  have hs : (c.latencies.mergeSort).Sorted (· ≤ ·) := List.sorted_mergeSort' c.latencies
  have hperm : (c.latencies.mergeSort).Perm c.latencies := List.mergeSort_perm c.latencies _
  have hlen : (c.latencies.mergeSort).length = c.latencies.length := hperm.length_eq
  have h99 : percentileIndex c.latencies.length 99 < (c.latencies.mergeSort).length := by
    rw [hlen]; exact percentileIndex_lt h (by norm_num)
  have hmono : ∀ p q : Nat, p ≤ q →
      percentileIndex c.latencies.length p ≤ percentileIndex c.latencies.length q :=
    fun p q hpq => Nat.div_le_div_right (Nat.mul_le_mul_left _ hpq)
  refine ⟨?_, ?_, ?_⟩
  · rw [e50, e95]
    exact Nat.div_le_div_right
      (sorted_getD_le hs (hmono 50 95 (by norm_num))
        (by rw [hlen]; exact percentileIndex_lt h (by norm_num)))
  · rw [e95, e99]
    exact Nat.div_le_div_right (sorted_getD_le hs (hmono 95 99 (by norm_num)) h99)
  · rw [e99]
    exact Nat.div_le_div_right (mem_le_foldr_max (hperm.subset (getD_mem h99)))

/-- Claim C7 witness: percentile monotonicity on a concrete three-sample
collector. -/
theorem claim_C7_witness :
    (sampleCollector.GetMetrics).P50Latency ≤ (sampleCollector.GetMetrics).P95Latency ∧
    (sampleCollector.GetMetrics).P95Latency ≤ (sampleCollector.GetMetrics).P99Latency ∧
    (sampleCollector.GetMetrics).P99Latency
      ≤ millis (sampleCollector.latencies.foldr max 0) :=
  claim_C7_percentile_monotone sampleCollector (by decide)

lemma applyOp_cap {c : Collector}
    (h : c.latencies.length ≤ c.maxLatencies) (op : CollectorOp) :
    (applyOp c op).latencies.length ≤ (applyOp c op).maxLatencies ∧
    (applyOp c op).maxLatencies = c.maxLatencies := by
  cases op with
  | recordSuccess latency count =>
    refine ⟨?_, rfl⟩
    simp only [applyOp, Collector.RecordSuccess]
    split
    · simp only [List.length_append, List.length_cons, List.length_nil]
      omega
    · exact h
  | recordFailure count => exact ⟨h, rfl⟩
  | reset => exact ⟨Nat.zero_le _, rfl⟩

lemma runOps_cap {c : Collector}
    (h : c.latencies.length ≤ c.maxLatencies) (ops : List CollectorOp) :
    (runOps c ops).latencies.length ≤ (runOps c ops).maxLatencies ∧
    (runOps c ops).maxLatencies = c.maxLatencies := by
  induction ops generalizing c with
  | nil => exact ⟨h, rfl⟩
  | cons op ops ih =>
    obtain ⟨h1, h2⟩ := applyOp_cap h op
    obtain ⟨h3, h4⟩ := ih h1
    exact ⟨h3, h4.trans h2⟩

/-- A concrete collector whose sample buffer is exactly at the 100,000 cap. -/
def fullCollector : Collector :=
  { NewCollector with latencies := List.replicate 100000 0 }

/-- Claim C8: the sample buffer of any collector reachable from a fresh one
never exceeds 100,000 samples; `RecordSuccess` on a collector at (or above)
its cap leaves the buffer unchanged while still moving the counters, and
below the cap it appends the new sample at the end (never replacing old
ones). -/
theorem claim_C8_buffer_cap :
    (∀ ops : List CollectorOp,
       (runOps NewCollector ops).latencies.length ≤ 100000) ∧
    (∀ (c : Collector) (lat : Nat) (cnt : Int), c.maxLatencies ≤ c.latencies.length →
       (c.RecordSuccess lat cnt).latencies = c.latencies ∧
       (c.RecordSuccess lat cnt).totalRequests = c.totalRequests + cnt ∧
       (c.RecordSuccess lat cnt).successRequests = c.successRequests + cnt) ∧
    (∀ (c : Collector) (lat : Nat) (cnt : Int), c.latencies.length < c.maxLatencies →
       (c.RecordSuccess lat cnt).latencies = c.latencies ++ [lat]) := by
  refine ⟨?_, ?_, ?_⟩
  · intro ops
    obtain ⟨h1, h2⟩ := runOps_cap (c := NewCollector) (by simp [NewCollector]) ops
    rw [h2] at h1
    simpa [NewCollector] using h1
  · intro c lat cnt h
    have : ¬ c.latencies.length < c.maxLatencies := by omega
    simp [Collector.RecordSuccess, this]
  · intro c lat cnt h
    simp [Collector.RecordSuccess, h]

/-- Claim C8 witness: a collector at the cap drops the new sample but still
counts it; a fresh collector appends it. -/
theorem claim_C8_witness :
    (fullCollector.RecordSuccess 5 3).latencies = fullCollector.latencies ∧
    (NewCollector.RecordSuccess 5 3).latencies = NewCollector.latencies ++ [5] :=
  ⟨(claim_C8_buffer_cap.2.1 fullCollector 5 3
      (by simp only [fullCollector, NewCollector, List.length_replicate, le_refl])).1,
   claim_C8_buffer_cap.2.2 NewCollector 5 3 (by simp [NewCollector])⟩

/-! ### Write-server worker loop accounting (`write-server/load/generator.go`)

One iteration of the worker loop around `insertBatch`: the batch either fails
somewhere before `RecordSuccess` (modelled as `none`), in which case the
worker calls `RecordFailure(BatchSize)`, or succeeds with some measured
latency (`some latency`), in which case `insertBatch` itself calls
`RecordSuccess(latency, BatchSize)`. -/

/-- Collector effect of one write-server worker-loop iteration. -/
def workerStep (batchSize : Int) (c : Collector) (insertResult : Option Nat) :
    Collector :=
  match insertResult with
  | some latency => c.RecordSuccess latency batchSize
  | none => c.RecordFailure batchSize

/-- Claim C10, counterexample: on a collector whose buffer is at the
100,000-sample cap, a successful batch appends no latency sample at all, so
it is not true that exactly one sample is appended per successful batch. -/
theorem claim_C10_counterexample :
    fullCollector.latencies.length = 100000 ∧
    (workerStep 10 fullCollector (some 7)).latencies.length
      ≠ fullCollector.latencies.length + 1 := by
  have hlen : fullCollector.latencies.length = 100000 := by
    simp only [fullCollector, NewCollector, List.length_replicate]
  have hmax : fullCollector.maxLatencies = 100000 := rfl
  constructor
  · exact hlen
  · simp only [workerStep, Collector.RecordSuccess]
    rw [if_neg (by rw [hlen, hmax]; omega)]
    omega

/-- Claim C10 (amended): every write-server worker-loop iteration moves the
counters by `BatchSize`, not by 1 — a failed batch adds `BatchSize` to total
and failure, a successful one adds `BatchSize` to total and success — while
at most one latency sample is appended per successful batch (exactly one
while the buffer is below its cap), regardless of `BatchSize`. -/
theorem claim_C10_batch_accounting (bs : Int) (c : Collector) (lat : Nat) :
    (workerStep bs c none).totalRequests = c.totalRequests + bs ∧
    (workerStep bs c none).failedRequests = c.failedRequests + bs ∧
    (workerStep bs c none).successRequests = c.successRequests ∧
    (workerStep bs c none).latencies = c.latencies ∧
    (workerStep bs c (some lat)).totalRequests = c.totalRequests + bs ∧
    (workerStep bs c (some lat)).successRequests = c.successRequests + bs ∧
    (workerStep bs c (some lat)).failedRequests = c.failedRequests ∧
    (workerStep bs c (some lat)).latencies.length ≤ c.latencies.length + 1 ∧
    (c.latencies.length < c.maxLatencies →
       (workerStep bs c (some lat)).latencies = c.latencies ++ [lat]) := by
  refine ⟨rfl, rfl, rfl, rfl, rfl, rfl, rfl, ?_, ?_⟩
  · simp only [workerStep, Collector.RecordSuccess]
    split <;> simp
  · intro h
    simp [workerStep, Collector.RecordSuccess, h]

/-- Claim C10 witness: batch accounting at batch size 10 on a fresh
collector, discharging the under-cap hypothesis. -/
theorem claim_C10_witness :
    (workerStep 10 NewCollector none).totalRequests = NewCollector.totalRequests + 10 ∧
    (workerStep 10 NewCollector (some 7)).latencies = NewCollector.latencies ++ [7] :=
  ⟨(claim_C10_batch_accounting 10 NewCollector 7).1,
   (claim_C10_batch_accounting 10 NewCollector 7).2.2.2.2.2.2.2.2 (by simp [NewCollector])⟩

/-! ### Generator lifecycle (`write-server/load/generator.go`; the
read-server `Start`/`Stop` are line-for-line identical).  The stop channel is
modelled by a generation counter (`stopGen`, bumped whenever a fresh channel
is allocated) plus a closed flag; spawned goroutines by a worker count. -/

/-- `DefaultConfig()` of the write server. -/
def DefaultConfig : WConfig :=
  { TPS := 1000, BatchSize := 10, Workers := 5, Duration := 0,
    IsolationLevel := "READ COMMITTED" }

/-- The generator state: its config, its collector, the atomic `running`
flag, the current stop channel (generation + closed flag) and the number of
live workers. -/
structure Generator where
  config : WConfig
  collector : Collector
  running : Bool
  stopGen : Nat
  stopClosed : Bool
  activeWorkers : Nat
deriving DecidableEq

/-- `NewGenerator`: stopped, fresh collector, initial stop channel, no
workers. -/
def NewGenerator (config : WConfig) : Generator :=
  { config := config, collector := NewCollector, running := false,
    stopGen := 0, stopClosed := false, activeWorkers := 0 }

/-- `Generator.Start()`: rejects a second start while running, touching
nothing; otherwise sets the running flag, allocates a fresh stop channel,
resets the collector and spawns one worker per configured `Workers` (the Go
loop `for i := 0; i < Workers; i++` spawns `Workers.toNat` goroutines). -/
def Generator.Start (g : Generator) : Generator × Option String :=
  if g.running then (g, some "generator already running")
  else
    ({ g with
        running := true
        stopGen := g.stopGen + 1
        stopClosed := false
        collector := g.collector.Reset
        activeWorkers := g.config.Workers.toNat }, none)

/-- `Generator.Stop()`: returns immediately when not running; otherwise
clears the running flag, closes the stop channel and waits on the wait group
until every worker has exited. -/
def Generator.Stop (g : Generator) : Generator :=
  if !g.running then g
  else { g with running := false, stopClosed := true, activeWorkers := 0 }

/-- Claim C3: `Start` errors iff the generator is already running, and the
error case is side-effect free (the state, including collector, stop channel
and running flag, is returned untouched and no workers are spawned); a
successful `Start` resets the metrics, allocates a fresh (different, open)
stop channel, spawns exactly `Workers` workers, sets the running flag and
leaves the config alone. -/
theorem claim_C3_start (g : Generator) :
    (g.running = true → g.Start = (g, some "generator already running")) ∧
    (g.running = false →
       (g.Start).2 = none ∧
       (g.Start).1.running = true ∧
       (g.Start).1.collector = g.collector.Reset ∧
       (g.Start).1.collector.totalRequests = 0 ∧
       (g.Start).1.collector.successRequests = 0 ∧
       (g.Start).1.collector.failedRequests = 0 ∧
       (g.Start).1.collector.latencies = [] ∧
       (g.Start).1.stopGen ≠ g.stopGen ∧
       (g.Start).1.stopClosed = false ∧
       (g.Start).1.activeWorkers = g.config.Workers.toNat ∧
       (1 ≤ g.config.Workers → ((g.Start).1.activeWorkers : Int) = g.config.Workers) ∧
       (g.Start).1.config = g.config) := by
  obtain ⟨cfg, col, run, sg, sc, aw⟩ := g
  cases run
  · refine ⟨by simp, fun _ => ?_⟩
    refine ⟨rfl, rfl, rfl, rfl, rfl, rfl, rfl, Nat.succ_ne_self _, rfl, rfl, ?_, rfl⟩
    intro _hW
    exact Int.toNat_of_nonneg (by omega)
  · exact ⟨fun _ => rfl, by simp⟩

/-- Claim C3 witness: starting a fresh generator succeeds; starting it again
returns the already-running error with the state unchanged. -/
theorem claim_C3_witness :
    ((NewGenerator DefaultConfig).Start).2 = none ∧
    (((NewGenerator DefaultConfig).Start).1.Start).2
      = some "generator already running" :=
  ⟨((claim_C3_start (NewGenerator DefaultConfig)).2 rfl).1,
   congrArg Prod.snd ((claim_C3_start ((NewGenerator DefaultConfig).Start).1).1 rfl)⟩

/-- Claim C9: `Stop` on a non-running generator is an identity (it returns
the not-running condition without touching anything, so a second consecutive
`Stop` is always a no-op), while `Stop` on a running generator clears the
running flag, closes the stop channel, drains every worker and leaves the
collector and config alone. -/
theorem claim_C9_stop (g : Generator) :
    (g.running = false → g.Stop = g) ∧
    g.Stop.Stop = g.Stop ∧
    (g.running = true →
       (g.Stop).running = false ∧
       (g.Stop).stopClosed = true ∧
       (g.Stop).activeWorkers = 0 ∧
       (g.Stop).collector = g.collector ∧
       (g.Stop).config = g.config) := by
  cases hr : g.running <;> simp [Generator.Stop, hr]

/-- Claim C9 witness: stopping a never-started generator changes nothing;
stopping a started one clears the running flag, and stopping twice equals
stopping once. -/
theorem claim_C9_witness :
    (NewGenerator DefaultConfig).Stop = NewGenerator DefaultConfig ∧
    (((NewGenerator DefaultConfig).Start).1.Stop).running = false ∧
    (((NewGenerator DefaultConfig).Start).1.Stop.Stop
      = ((NewGenerator DefaultConfig).Start).1.Stop) :=
  ⟨(claim_C9_stop (NewGenerator DefaultConfig)).1 rfl,
   ((claim_C9_stop ((NewGenerator DefaultConfig).Start).1).2.2 rfl).1,
   (claim_C9_stop ((NewGenerator DefaultConfig).Start).1).2.1⟩

/-! ### Worker rate limiting -/

/-- The ticker interval (in nanoseconds) computed at the top of
`Generator.worker` when `TPS > 0`: `tpsPerWorker := TPS / Workers`, clamped
below by 1, and `interval := time.Second / tpsPerWorker`. -/
def Generator.workerInterval (g : Generator) : Int :=
  let tpsPerWorker := g.config.TPS / g.config.Workers
  let t := if tpsPerWorker < 1 then 1 else tpsPerWorker
  1000000000 / t

/-- Claim C6: with a positive rate target the per-worker tick interval is
one second divided by the per-worker rate `max 1 (⌊TPS / Workers⌋)`, and
whenever the worker count exceeds the rate target the division floors to
zero, the clamp lifts it to 1, and each worker still ticks once per second
(interval = 10^9 ns). -/
theorem claim_C6_worker_rate (g : Generator)
    (hT : 0 < g.config.TPS) (hW : 0 < g.config.Workers) :
    g.workerInterval = 1000000000 / (max 1 (g.config.TPS / g.config.Workers)) ∧
    (g.config.TPS < g.config.Workers → g.workerInterval = 1000000000) := by
  constructor
  · simp only [Generator.workerInterval]
    congr 1
    rcases le_or_lt 1 (g.config.TPS / g.config.Workers) with h | h
    · rw [if_neg (by omega), max_eq_right h]
    · rw [if_pos h, max_eq_left (by omega)]
  · intro hlt
    have h0 : g.config.TPS / g.config.Workers = 0 :=
      Int.ediv_eq_zero_of_lt (le_of_lt hT) hlt
    simp only [Generator.workerInterval, h0]
    norm_num

/-- Claim C6 witness: with TPS = 5 and 10 workers the per-worker rate floors
to 0, is clamped to 1, and the tick interval is a full second. -/
theorem claim_C6_witness :
    (NewGenerator { DefaultConfig with TPS := 5, Workers := 10 }).workerInterval
      = 1000000000 :=
  (claim_C6_worker_rate (NewGenerator { DefaultConfig with TPS := 5, Workers := 10 })
    (by decide) (by decide)).2 (by decide)

/-! ### Read-server query-kind selection (`read-server/load/generator.go`,
`selectQueryType`): the uniform draw `r := rand.Intn(100)` is a parameter. -/

/-- `Generator.selectQueryType` of the read server, on its config and the
random draw: first cumulative bound exceeding the draw wins, in the declared
order simple, filter, aggregate. -/
def RConfig.selectQueryType (c : RConfig) (r : Int) : String :=
  if r < c.QueryMix.Simple then "simple"
  else if r < c.QueryMix.Simple + c.QueryMix.Filter then "filter"
  else "aggregate"

/-- `DefaultConfig()` of the read server. -/
def RDefaultConfig : RConfig :=
  { QPS := 1000, Workers := 10, Duration := 0,
    QueryMix := { Simple := 60, Filter := 30, Aggregate := 10 },
    IsolationLevel := "READ COMMITTED" }

/-- Claim C5: for a validated mix (non-negative weights summing to 100) and
a draw `r` in `[0, 100)`, the selection is "simple" iff `r < Simple`,
"filter" iff `Simple ≤ r < Simple + Filter`, and "aggregate" otherwise, so
out of the 100 equiprobable draws exactly `Simple` select "simple", `Filter`
select "filter" and `Aggregate` select "aggregate": each kind is chosen with
probability weight/100. -/
theorem claim_C5_query_mix (c : RConfig) (r : Int)
    (hr0 : 0 ≤ r) (hr : r < 100)
    (hS : 0 ≤ c.QueryMix.Simple) (hF : 0 ≤ c.QueryMix.Filter)
    (hA : 0 ≤ c.QueryMix.Aggregate)
    (hsum : c.QueryMix.Simple + c.QueryMix.Filter + c.QueryMix.Aggregate = 100) :
    (c.selectQueryType r = "simple" ↔ r < c.QueryMix.Simple) ∧
    (c.selectQueryType r = "filter" ↔
       c.QueryMix.Simple ≤ r ∧ r < c.QueryMix.Simple + c.QueryMix.Filter) ∧
    (c.selectQueryType r = "aggregate" ↔
       c.QueryMix.Simple + c.QueryMix.Filter ≤ r) ∧
    ((Finset.Ico (0 : Int) 100).filter
        (fun x => c.selectQueryType x = "simple")).card
      = c.QueryMix.Simple.toNat ∧
    ((Finset.Ico (0 : Int) 100).filter
        (fun x => c.selectQueryType x = "filter")).card
      = c.QueryMix.Filter.toNat ∧
    ((Finset.Ico (0 : Int) 100).filter
        (fun x => c.selectQueryType x = "aggregate")).card
      = c.QueryMix.Aggregate.toNat := by
  have hiff : ∀ x : Int,
      (c.selectQueryType x = "simple" ↔ x < c.QueryMix.Simple) ∧
      (c.selectQueryType x = "filter" ↔
         c.QueryMix.Simple ≤ x ∧ x < c.QueryMix.Simple + c.QueryMix.Filter) ∧
      (c.selectQueryType x = "aggregate" ↔
         ¬ x < c.QueryMix.Simple ∧
         ¬ x < c.QueryMix.Simple + c.QueryMix.Filter) := by
    intro x
    simp only [RConfig.selectQueryType]
    split_ifs with h1 h2 <;>
      refine ⟨?_, ?_, ?_⟩ <;> simp_all <;> omega
  have e1 : (Finset.Ico (0 : Int) 100).filter
      (fun x => c.selectQueryType x = "simple")
      = Finset.Ico (0 : Int) c.QueryMix.Simple := by
    ext x
    simp only [Finset.mem_filter, Finset.mem_Ico, (hiff x).1]
    omega
  have e2 : (Finset.Ico (0 : Int) 100).filter
      (fun x => c.selectQueryType x = "filter")
      = Finset.Ico c.QueryMix.Simple (c.QueryMix.Simple + c.QueryMix.Filter) := by
    ext x
    simp only [Finset.mem_filter, Finset.mem_Ico, (hiff x).2.1]
    omega
  have e3 : (Finset.Ico (0 : Int) 100).filter
      (fun x => c.selectQueryType x = "aggregate")
      = Finset.Ico (c.QueryMix.Simple + c.QueryMix.Filter) 100 := by
    ext x
    simp only [Finset.mem_filter, Finset.mem_Ico, (hiff x).2.2]
    omega
  refine ⟨(hiff r).1, (hiff r).2.1, ?_, ?_, ?_, ?_⟩
  · rw [(hiff r).2.2]
    constructor
    · intro h
      omega
    · intro h
      omega
  · rw [e1, Int.card_Ico]
    congr 1
    omega
  · rw [e2, Int.card_Ico]
    congr 1
    omega
  · rw [e3, Int.card_Ico]
    congr 1
    omega

/-- Claim C5 witness: on the default 60/30/10 read config, the draw 65
selects "filter", and the three kinds are selected by exactly 60, 30 and 10
of the 100 possible draws. -/
theorem claim_C5_witness :
    (RDefaultConfig.selectQueryType 65 = "filter" ↔
       RDefaultConfig.QueryMix.Simple ≤ 65 ∧
       65 < RDefaultConfig.QueryMix.Simple + RDefaultConfig.QueryMix.Filter) ∧
    ((Finset.Ico (0 : Int) 100).filter
        (fun x => RDefaultConfig.selectQueryType x = "simple")).card
      = RDefaultConfig.QueryMix.Simple.toNat :=
  ⟨(claim_C5_query_mix RDefaultConfig 65 (by decide) (by decide) (by decide)
      (by decide) (by decide) (by decide)).2.1,
   (claim_C5_query_mix RDefaultConfig 65 (by decide) (by decide) (by decide)
      (by decide) (by decide) (by decide)).2.2.2.1⟩

end DbStudy
